import Mathlib

/-!
Shallow embedding of `SimPEG/data.py` (`Data`, `SyntheticData`, `UncertaintyArray`)
and of the survey interface it consumes.

Modelling conventions:
* numpy float entries are modelled by `RVal`: either the missing-value sentinel
  `nan` (Python `np.nan`) or an exact rational number.  The IEEE operations used
  by the code (`+`, `*`, `np.absolute`) propagate `nan`, which `RVal` mirrors.
* numpy 1-d arrays are `List RVal`; element-wise binary operations broadcast a
  length-1 operand and fail with a broadcast error on any other length mismatch,
  as numpy does.
* a `properties.HasProperties` field that has not been set reads as `None`, so
  the three array fields of `Data` are `Option (List RVal)`.
* Python exceptions are the error side of `Except PyError`; an error result from
  a setter means the assignment raised and the stored field kept its previous
  value (the `properties` library runs validators before committing a value).
* `warnings.warn` calls are collected as a list of emitted warning strings, so
  that a deprecation signal is visibly distinct from a raised error.
-/

/-- A numpy float value: the not-a-number sentinel or an exact number. -/
inductive RVal
  | nan
  | num (q : ℚ)
deriving DecidableEq, Repr

/-- IEEE addition at the precision we model: `nan` propagates. -/
def RVal.add : RVal → RVal → RVal
  | .num a, .num b => .num (a + b)
  | _, _ => .nan

/-- IEEE multiplication at the precision we model: `nan` propagates. -/
def RVal.mul : RVal → RVal → RVal
  | .num a, .num b => .num (a * b)
  | _, _ => .nan

/-- `np.absolute` on one entry: `nan` propagates. -/
def RVal.abs : RVal → RVal
  | .nan => .nan
  | .num a => .num |a|

/-- The Python exceptions the embedded code can raise. -/
inductive PyError
  | lengthError (field : String) (got expected : ℕ)
  | shapeError
  | broadcastError
  | indexError
  | keyError
  | typeError
  | stateError
  | attributeError
deriving DecidableEq, Repr

/-- A Python value handed to a setter: an int, a float scalar, or a 1-d array. -/
inductive PyVal
  | int (n : ℤ)
  | float (v : RVal)
  | arr (a : List RVal)
deriving DecidableEq, Repr

/-- A receiver of the survey; `nD` is its datum count. -/
structure Receiver where
  nD : ℕ
deriving DecidableEq, Repr

/-- A source of the survey, with its ordered receivers. -/
structure Source where
  receiver_list : List Receiver
deriving DecidableEq, Repr

/-- The survey: an ordered list of sources. -/
structure BaseSurvey where
  source_list : List Source
deriving DecidableEq, Repr

/-- Modelled from the spec: the survey class is not part of this excerpt; per
section 3, `Survey.nD = Σ over all receivers of Receiver.nD`. -/
def BaseSurvey.nD (s : BaseSurvey) : ℕ :=
  (s.source_list.map (fun src => (src.receiver_list.map Receiver.nD).sum)).sum

/-- Element-wise numpy addition of 1-d arrays, with length-1 broadcasting. -/
def npAdd (a b : List RVal) : Except PyError (List RVal) :=
  if a.length = b.length then .ok (List.zipWith RVal.add a b)
  else if a.length = 1 then .ok (b.map (RVal.add (a.getD 0 .nan)))
  else if b.length = 1 then .ok (a.map (fun x => RVal.add x (b.getD 0 .nan)))
  else .error .broadcastError

/-- Element-wise numpy multiplication of 1-d arrays, with length-1 broadcasting. -/
def npMul (a b : List RVal) : Except PyError (List RVal) :=
  if a.length = b.length then .ok (List.zipWith RVal.mul a b)
  else if a.length = 1 then .ok (b.map (RVal.mul (a.getD 0 .nan)))
  else if b.length = 1 then .ok (a.map (fun x => RVal.mul x (b.getD 0 .nan)))
  else .error .broadcastError

/-- Fancy-index read `a[np.arange(lo, hi)]`: out-of-range indices raise
`IndexError`, otherwise the entries at positions `lo, …, hi-1` are returned. -/
def npFancyGet (a : List RVal) (lo hi : ℕ) : Except PyError (List RVal) :=
  if hi ≤ a.length ∨ hi ≤ lo then
    .ok ((List.range' lo (hi - lo)).map (fun i => a.getD i .nan))
  else .error .indexError

/-- Fancy-index in-place write `a[np.arange(lo, hi)] = v`: numpy broadcasting
accepts `v` of the range's length, or of length 1 (broadcast to the whole
range); any other length raises a broadcast `ValueError`. -/
def npFancySet (a : List RVal) (lo hi : ℕ) (v : List RVal) : Except PyError (List RVal) :=
  if hi ≤ a.length ∨ hi ≤ lo then
    if v.length = hi - lo then
      .ok (a.mapIdx fun i x => if lo ≤ i ∧ i < hi then v.getD (i - lo) .nan else x)
    else if v.length = 1 then
      .ok (a.mapIdx fun i x => if lo ≤ i ∧ i < hi then v.getD 0 .nan else x)
    else .error .broadcastError
  else .error .indexError

/-- The `Data` instance state: the survey reference and the three array fields
(`None` when never assigned). -/
structure Data where
  survey : BaseSurvey
  dobs : Option (List RVal)
  standard_deviation : Option (List RVal)
  noise_floor : Option (List RVal)
deriving DecidableEq, Repr

/-- `UncertaintyArray.validate`: a Python int is coerced to a float, a float
passes through, and anything else falls to `super(properties.Array, self)`,
i.e. the base `Property.validate`, which returns the value unchanged (the
`properties.Array` shape check is skipped by that `super` call). -/
def UncertaintyArray.validate : PyVal → PyVal
  | .int n => .float (.num (n : ℚ))
  | v => v

/-- `Data._dobs_validator`: raises a `ValueError` naming the field, the length
received and `survey.nD` when the lengths differ. -/
def Data.dobsValidator (d : Data) (field : String) (a : List RVal) :
    Except PyError (List RVal) :=
  if d.survey.nD ≠ a.length then .error (.lengthError field a.length d.survey.nD)
  else .ok a

/-- Assignment `data.dobs = v`: `properties.Array.validate` rejects non-array
values (shape `('*',)`), then `_dobs_validator` checks the length; only a value
passing both is stored. -/
def Data.set_dobs (d : Data) (v : PyVal) : Except PyError Data :=
  match v with
  | .arr a => (d.dobsValidator "dobs" a).map fun a => { d with dobs := some a }
  | _ => .error .shapeError

/-- `Data._uncertainty_validator` applied to the value produced by
`UncertaintyArray.validate`: a float scalar is broadcast to
`value * np.ones(self.nD)` with `self.nD = len(self.dobs)` (a `TypeError` if
`dobs` is unset); an int cannot occur after the coercion, but if it did,
`len(int)` in `_dobs_validator` would raise a `TypeError`. The result then goes
through the `_dobs_validator` length check. -/
def Data.uncertaintyValidator (d : Data) (field : String) (v : PyVal) :
    Except PyError (List RVal) := do
  let a ← match UncertaintyArray.validate v with
    | .float x =>
        match d.dobs with
        | some ds => Except.ok (List.replicate ds.length x)
        | none => Except.error .typeError
    | .arr a => Except.ok a
    | .int _ => Except.error .typeError
  d.dobsValidator field a

/-- Assignment `data.standard_deviation = v`. -/
def Data.set_standard_deviation (d : Data) (v : PyVal) : Except PyError Data :=
  (d.uncertaintyValidator "standard_deviation" v).map fun a =>
    { d with standard_deviation := some a }

/-- Assignment `data.noise_floor = v`. -/
def Data.set_noise_floor (d : Data) (v : PyVal) : Except PyError Data :=
  (d.uncertaintyValidator "noise_floor" v).map fun a =>
    { d with noise_floor := some a }

/-- `Data.__init__(survey, dobs, standard_deviation, noise_floor)`: a missing
`dobs` defaults to `np.nan * np.ones(survey.nD)` (all-`nan`), missing
uncertainty fields default to `np.zeros(survey.nD)`, and each is assigned
through its property setter in this order. -/
def Data.init (survey : BaseSurvey)
    (dobs standard_deviation noise_floor : Option PyVal) : Except PyError Data := do
  let d : Data :=
    { survey, dobs := none, standard_deviation := none, noise_floor := none }
  let d ← d.set_dobs (dobs.getD (.arr (List.replicate survey.nD .nan)))
  let d ← d.set_standard_deviation
    (standard_deviation.getD (.arr (List.replicate survey.nD (.num 0))))
  let d ← d.set_noise_floor
    (noise_floor.getD (.arr (List.replicate survey.nD (.num 0))))
  pure d

/-- The `uncertainty` getter: raises when both contributing fields are unset,
otherwise computes `np.zeros(self.nD) + standard_deviation * np.absolute(dobs)
+ noise_floor`, skipping an unset contribution. `self.nD` is `len(self.dobs)`. -/
def Data.uncertainty (d : Data) : Except PyError (List RVal) := do
  match d.standard_deviation, d.noise_floor with
  | none, none => Except.error .stateError
  | _, _ =>
    match d.dobs with
    | none => Except.error .typeError
    | some ds => do
      let uncert := List.replicate ds.length (RVal.num 0)
      let uncert ← match d.standard_deviation with
        | some s => do
            let p ← npMul s (ds.map RVal.abs)
            npAdd uncert p
        | none => Except.ok uncert
      let uncert ← match d.noise_floor with
        | some f => npAdd uncert f
        | none => Except.ok uncert
      pure uncert

/-- The `uncertainty` setter. Its first statement in the source is
`self.self.standard_deviation = np.zeros(self.nD)`: `Data` has no attribute
`self`, so the attribute lookup raises `AttributeError` before either
`standard_deviation` or `noise_floor` is assigned. -/
def Data.set_uncertainty (_ : Data) (_ : PyVal) : Except PyError Data :=
  .error .attributeError

/-- The index ranges of one source's receivers, from running offset `off`:
for each receiver `indTop += rx.nD`, record `np.arange(indBot, indTop)` as the
pair `(indBot, indTop)`, then `indBot += rx.nD`. -/
def buildRanges : List ℕ → ℕ → List (ℕ × ℕ)
  | [], _ => []
  | n :: rest, off => (off, off + n) :: buildRanges rest (off + n)

/-- The per-source range lists produced by the double loop of
`Data.index_dict`, with the offset running across sources. -/
def buildRangesNested : List Source → ℕ → List (List (ℕ × ℕ))
  | [], _ => []
  | src :: rest, off =>
    buildRanges (src.receiver_list.map Receiver.nD) off ::
      buildRangesNested rest (off + (src.receiver_list.map Receiver.nD).sum)

/-- `Data.index_dict`: the two-level mapping from sources (outer position) and
receivers (inner position) to the half-open index range `[indBot, indTop)`,
built by walking sources in order and receivers within each source in order. -/
def Data.index_dict (d : Data) : List (List (ℕ × ℕ)) :=
  buildRangesNested d.survey.source_list 0

/-- The range `index_dict[key[0]][key[1]]` for the source at position `si` and
its receiver at position `ri`. -/
def Data.rangeOf (d : Data) (si ri : ℕ) : Option (ℕ × ℕ) :=
  (d.index_dict.getD si []).get? ri

/-- The recommended read `data.dobs[index]` for `index = np.arange(lo, hi)`
taken from `index_dict` (a `TypeError` when `dobs` is unset). -/
def Data.readRange (d : Data) (lo hi : ℕ) : Except PyError (List RVal) :=
  match d.dobs with
  | none => .error .typeError
  | some a => npFancyGet a lo hi

/-- The recommended in-place write `data.dobs[index] = v` for
`index = np.arange(lo, hi)` taken from `index_dict`: it mutates the stored
array directly, without passing through the `dobs` property setter. -/
def Data.writeRange (d : Data) (lo hi : ℕ) (v : List RVal) : Except PyError Data :=
  match d.dobs with
  | none => .error .typeError
  | some a => (npFancySet a lo hi v).map fun a => { d with dobs := some a }

/-- The deprecation warning emitted by `__setitem__` and `__getitem__`. -/
def dictAccessWarning : String :=
  "Treating the data object as a dictionary has been depreciated in favor of working with the index_dict"

/-- `Data.__getitem__(key)`: warns, resolves `index_dict[key[0]][key[1]]` and
returns `self.dobs[index]`; a key absent from the map raises `KeyError`. -/
def Data.getItem (d : Data) (si ri : ℕ) : List String × Except PyError (List RVal) :=
  (⟨[dictAccessWarning],
    match d.rangeOf si ri with
    | none => .error .keyError
    | some (lo, hi) =>
      match d.dobs with
      | none => .error .typeError
      | some a => npFancyGet a lo hi⟩)

/-- `Data.__setitem__(key, value)`: warns, resolves
`index_dict[key[0]][key[1]]` and performs the in-place numpy write
`self.dobs[index] = value`; no property validator runs. -/
def Data.setItem (d : Data) (si ri : ℕ) (v : List RVal) :
    List String × Except PyError Data :=
  (⟨[dictAccessWarning],
    match d.rangeOf si ri with
    | none => .error .keyError
    | some (lo, hi) =>
      match d.dobs with
      | none => .error .typeError
      | some a => (npFancySet a lo hi v).map fun a => { d with dobs := some a }⟩)

/-- The `SyntheticData` instance state: the base `Data` fields plus `dclean`. -/
structure SyntheticData where
  toData : Data
  dclean : Option (List RVal)
deriving DecidableEq, Repr

/-- Assignment `synthetic.dclean = v`: `properties.Array.validate` rejects
non-array values, then `_dclean_validator` delegates to `_dobs_validator`,
which checks the length against `survey.nD` naming the field `dclean`. -/
def SyntheticData.set_dclean (sd : SyntheticData) (v : PyVal) :
    Except PyError SyntheticData :=
  match v with
  | .arr a =>
    (sd.toData.dobsValidator "dclean" a).map fun a => { sd with dclean := some a }
  | _ => .error .shapeError

/-- `SyntheticData.__init__`: first constructs the base `Data` fields, then
assigns `dclean`, defaulting a missing `dclean` to
`np.nan * np.ones(self.survey.nD)`. -/
def SyntheticData.init (survey : BaseSurvey)
    (dobs dclean standard_deviation noise_floor : Option PyVal) :
    Except PyError SyntheticData := do
  let base ← Data.init survey dobs standard_deviation noise_floor
  let sd : SyntheticData := { toData := base, dclean := none }
  sd.set_dclean (dclean.getD (.arr (List.replicate survey.nD .nan)))

/-! ### Concrete example survey and data (spec section 8's worked example) -/

/-- The example receiver `r1` with `nD = 2`. -/
def rEx1 : Receiver := ⟨2⟩

/-- The example receiver `r2` with `nD = 3`. -/
def rEx2 : Receiver := ⟨3⟩

/-- The example receiver `r3` with `nD = 1`. -/
def rEx3 : Receiver := ⟨1⟩

/-- The example source `s1` with receivers `[r1, r2]`. -/
def sEx1 : Source := ⟨[rEx1, rEx2]⟩

/-- The example source `s2` with receivers `[r3]`. -/
def sEx2 : Source := ⟨[rEx3]⟩

/-- The example survey with sources `[s1, s2]`. -/
def surveyEx : BaseSurvey := ⟨[sEx1, sEx2]⟩

/-- A `Data` instance over the example survey in a fully set valid state. -/
def dataEx : Data :=
  { survey := surveyEx,
    dobs := some [.num 0, .num 1, .num 2, .num 3, .num 4, .num 5],
    standard_deviation := some (List.replicate 6 (.num 0)),
    noise_floor := some (List.replicate 6 (.num 0)) }

/-- The state expected after writing `[7, 8, 9]` into range `[2, 5)` of
`dataEx.dobs` in place. -/
def dataExWritten : Data :=
  { survey := surveyEx,
    dobs := some [.num 0, .num 1, .num 7, .num 8, .num 9, .num 5],
    standard_deviation := some (List.replicate 6 (.num 0)),
    noise_floor := some (List.replicate 6 (.num 0)) }

/-! ### Helper lemmas about the index ranges -/

/-- Flattening the intervals built from a running offset yields the contiguous
block of indices starting at the offset. -/
theorem buildRanges_flatten_ranges (ns : List ℕ) (off : ℕ) :
    ((buildRanges ns off).map (fun p => List.range' p.1 (p.2 - p.1))).flatten
      = List.range' off ns.sum := by
  induction ns generalizing off with
  | nil => rfl
  | cons n rest ih =>
    simp only [buildRanges, List.map_cons, List.flatten_cons, ih, List.sum_cons,
      Nat.add_sub_cancel_left]
    have h := List.range'_append off n rest.sum 1
    rw [one_mul] at h
    rw [h, Nat.add_comm]

/-- `buildRanges` over an appended count list splits at the accumulated sum. -/
theorem buildRanges_append (xs ys : List ℕ) (off : ℕ) :
    buildRanges (xs ++ ys) off
      = buildRanges xs off ++ buildRanges ys (off + xs.sum) := by
  induction xs generalizing off with
  | nil => simp [buildRanges]
  | cons x rest ih =>
    simp [buildRanges, ih, Nat.add_assoc]

/-- Flattening the nested per-source range lists gives the ranges of the
flattened receiver-count list. -/
theorem buildRangesNested_flatten (srcs : List Source) (off : ℕ) :
    (buildRangesNested srcs off).flatten
      = buildRanges (srcs.flatMap (fun s => s.receiver_list.map Receiver.nD)) off := by
  induction srcs generalizing off with
  | nil => rfl
  | cons s rest ih =>
    simp [buildRangesNested, ih, buildRanges_append]

/-- The survey's datum count is the sum of the flattened receiver counts. -/
theorem BaseSurvey.nD_eq_flat (s : BaseSurvey) :
    s.nD = (s.source_list.flatMap (fun src => src.receiver_list.map Receiver.nD)).sum := by
  unfold BaseSurvey.nD
  induction s.source_list with
  | nil => rfl
  | cons a rest ih => simp [List.flatMap_cons, ih]

/-! ### Claim theorems -/

/-- C1: the claim says assigning `data.uncertainty = u` clears
`standard_deviation` to zero, sets `noise_floor` to `u`, and completes without
raising.  The source's setter begins with
`self.self.standard_deviation = np.zeros(self.nD)`, and the attribute lookup
`self.self` raises `AttributeError` on every call, so neither field is ever
assigned: the code contradicts the property's own docstring. -/
theorem c1_uncertainty_setter_always_raises :
    (∀ (d : Data) (u : PyVal), d.set_uncertainty u = .error .attributeError) ∧
    dataEx.set_uncertainty (.arr (List.replicate 6 (.num 1))) = .error .attributeError :=
  ⟨fun _ _ => rfl, rfl⟩

/-- Constructing a `Data` from a survey alone succeeds and produces the
default-filled state. -/
theorem data_init_default (S : BaseSurvey) :
    Data.init S none none none =
      .ok { survey := S, dobs := some (List.replicate S.nD .nan),
            standard_deviation := some (List.replicate S.nD (.num 0)),
            noise_floor := some (List.replicate S.nD (.num 0)) } := by
  simp [Data.init, Data.set_dobs, Data.set_standard_deviation, Data.set_noise_floor,
    Data.uncertaintyValidator, UncertaintyArray.validate, Data.dobsValidator,
    Except.map, Bind.bind, Except.bind, Pure.pure, Except.pure]

/-- C7: a `Data` constructed from a survey alone has all three arrays of
length `survey.nD`, with `dobs` filled with the `nan` sentinel and
`standard_deviation` and `noise_floor` all zero. -/
theorem c7_fresh_construction (S : BaseSurvey) :
    Data.init S none none none =
      .ok { survey := S, dobs := some (List.replicate S.nD .nan),
            standard_deviation := some (List.replicate S.nD (.num 0)),
            noise_floor := some (List.replicate S.nD (.num 0)) } :=
  data_init_default S

/-- C3: the index ranges are contiguous, non-overlapping and cover exactly
`[0, survey.nD)` in walking order (their concatenation is the list
`0, 1, …, nD - 1`), and on the worked example survey the ranges are
`r1 = [0,2)`, `r2 = [2,5)`, `r3 = [5,6)` with `nD = 6`; writing `[7,8,9]` at
range `[2,5)` of `dobs` and reading the same range back yields `[7,8,9]`. -/
theorem c3_index_ranges_partition :
    (∀ d : Data,
      ((d.index_dict.flatten).map (fun p => List.range' p.1 (p.2 - p.1))).flatten
        = List.range d.survey.nD) ∧
    dataEx.index_dict = [[(0, 2), (2, 5)], [(5, 6)]] ∧
    surveyEx.nD = 6 ∧
    dataEx.writeRange 2 5 [.num 7, .num 8, .num 9] = .ok dataExWritten ∧
    dataExWritten.readRange 2 5 = .ok [.num 7, .num 8, .num 9] := by
  refine ⟨fun d => ?_, by decide, by decide, by rfl, by rfl⟩
  rw [Data.index_dict, buildRangesNested_flatten, buildRanges_flatten_ranges,
    ← BaseSurvey.nD_eq_flat, List.range_eq_range']

/-- Adding an all-zero array of matching length on the left is the identity. -/
theorem zipWith_add_replicate_zero (x : List RVal) (n : ℕ) (h : x.length = n) :
    List.zipWith RVal.add (List.replicate n (RVal.num 0)) x = x := by
  induction x generalizing n with
  | nil => simp
  | cons y ys ih =>
    cases n with
    | zero => simp at h
    | succ m =>
      have hm : ys.length = m := by simpa using h
      simp only [List.replicate_succ, List.zipWith_cons_cons]
      rw [ih m hm]
      cases y with
      | nan => rfl
      | num q => simp [RVal.add]

/-- C4: in a valid state (all three arrays set, each of length `survey.nD`),
the `uncertainty` getter returns `standard_deviation * abs(dobs) + noise_floor`
element-wise over the full vector, without raising. -/
theorem c4_uncertainty_formula (d : Data) (a s f : List RVal)
    (ha : d.dobs = some a) (hs : d.standard_deviation = some s)
    (hf : d.noise_floor = some f) (la : a.length = d.survey.nD)
    (ls : s.length = d.survey.nD) (lf : f.length = d.survey.nD) :
    d.uncertainty
      = .ok (List.zipWith RVal.add (List.zipWith RVal.mul s (a.map RVal.abs)) f) := by
  have hsa : s.length = (List.map RVal.abs a).length := by simp [ls, la]
  have h1 : npMul s (a.map RVal.abs)
      = Except.ok (List.zipWith RVal.mul s (a.map RVal.abs)) := by
    simp [npMul, hsa]
  have hz : (List.zipWith RVal.mul s (a.map RVal.abs)).length = a.length := by
    simp only [List.length_zipWith, List.length_map, ls, la, Nat.min_self]
  have h2 : npAdd (List.replicate a.length (RVal.num 0))
        (List.zipWith RVal.mul s (a.map RVal.abs))
      = Except.ok (List.zipWith RVal.mul s (a.map RVal.abs)) := by
    simp [npAdd, hz, zipWith_add_replicate_zero _ _ hz]
  have hzf : (List.zipWith RVal.mul s (a.map RVal.abs)).length = f.length := by
    rw [hz, la, lf]
  have h3 : npAdd (List.zipWith RVal.mul s (a.map RVal.abs)) f
      = Except.ok (List.zipWith RVal.add
          (List.zipWith RVal.mul s (a.map RVal.abs)) f) := by
    simp [npAdd, hzf]
  simp [Data.uncertainty, ha, hs, hf, h1, h2, h3, Bind.bind, Except.bind,
    Pure.pure, Except.pure]

/-- C4 witness: the formula evaluated on the example data instance. -/
theorem c4_witness :
    dataEx.uncertainty
      = .ok (List.zipWith RVal.add
          (List.zipWith RVal.mul (List.replicate 6 (.num 0))
            (([RVal.num 0, .num 1, .num 2, .num 3, .num 4, .num 5]).map RVal.abs))
          (List.replicate 6 (.num 0))) :=
  c4_uncertainty_formula dataEx
    [RVal.num 0, .num 1, .num 2, .num 3, .num 4, .num 5]
    (List.replicate 6 (.num 0)) (List.replicate 6 (.num 0))
    rfl rfl rfl (by decide) (by decide) (by decide)

/-- C5: assigning an array whose length differs from `survey.nD` to `dobs`,
`standard_deviation` or `noise_floor` raises the validation error naming the
field, the received length and the expected length; since validators run
before a value is committed, the previous field value is left unchanged. -/
theorem c5_wrong_length_raises (d : Data) (a : List RVal)
    (h : a.length ≠ d.survey.nD) :
    d.set_dobs (.arr a) = .error (.lengthError "dobs" a.length d.survey.nD) ∧
    d.set_standard_deviation (.arr a)
      = .error (.lengthError "standard_deviation" a.length d.survey.nD) ∧
    d.set_noise_floor (.arr a)
      = .error (.lengthError "noise_floor" a.length d.survey.nD) := by
  have h' : d.survey.nD ≠ a.length := fun e => h e.symm
  refine ⟨?_, ?_, ?_⟩ <;>
    simp [Data.set_dobs, Data.set_standard_deviation, Data.set_noise_floor,
      Data.uncertaintyValidator, UncertaintyArray.validate, Data.dobsValidator,
      Except.map, Bind.bind, Except.bind, h']

/-- C5 witness: a length-1 array against the 6-datum example instance. -/
theorem c5_witness :
    dataEx.set_dobs (.arr [.num 1])
      = .error (.lengthError "dobs" 1 dataEx.survey.nD) ∧
    dataEx.set_standard_deviation (.arr [.num 1])
      = .error (.lengthError "standard_deviation" 1 dataEx.survey.nD) ∧
    dataEx.set_noise_floor (.arr [.num 1])
      = .error (.lengthError "noise_floor" 1 dataEx.survey.nD) :=
  c5_wrong_length_raises dataEx [.num 1] (by decide)

/-- C6: with `dobs` set and of length `survey.nD`, assigning a scalar `s` to
`standard_deviation` (or `noise_floor`) leaves the instance in the same state
as assigning an array of `survey.nD` copies of `s`. -/
theorem c6_scalar_broadcast_equiv (d : Data) (ds : List RVal) (s : RVal)
    (hd : d.dobs = some ds) (hn : ds.length = d.survey.nD) :
    d.set_standard_deviation (.float s)
      = d.set_standard_deviation (.arr (List.replicate d.survey.nD s)) ∧
    d.set_noise_floor (.float s)
      = d.set_noise_floor (.arr (List.replicate d.survey.nD s)) := by
  constructor <;>
    simp [Data.set_standard_deviation, Data.set_noise_floor,
      Data.uncertaintyValidator, UncertaintyArray.validate, Data.dobsValidator,
      Except.map, Bind.bind, Except.bind, hd, hn]

/-- C6 witness: broadcasting the scalar one-half over the example instance. -/
theorem c6_witness :
    dataEx.set_standard_deviation (.float (.num (1 / 2)))
      = dataEx.set_standard_deviation
          (.arr (List.replicate dataEx.survey.nD (.num (1 / 2)))) ∧
    dataEx.set_noise_floor (.float (.num (1 / 2)))
      = dataEx.set_noise_floor
          (.arr (List.replicate dataEx.survey.nD (.num (1 / 2)))) :=
  c6_scalar_broadcast_equiv dataEx
    [RVal.num 0, .num 1, .num 2, .num 3, .num 4, .num 5] (.num (1 / 2))
    rfl (by decide)

/-- C10: assigning a Python int scalar to `standard_deviation` or
`noise_floor` succeeds: `UncertaintyArray.validate` coerces the int to a
float, which the validator then broadcasts to `survey.nD` copies. -/
theorem c10_int_scalar_coercion (d : Data) (ds : List RVal) (n : ℤ)
    (hd : d.dobs = some ds) (hn : ds.length = d.survey.nD) :
    d.set_standard_deviation (.int n)
      = .ok { survey := d.survey, dobs := d.dobs,
              standard_deviation := some (List.replicate d.survey.nD (.num (n : ℚ))),
              noise_floor := d.noise_floor } ∧
    d.set_noise_floor (.int n)
      = .ok { survey := d.survey, dobs := d.dobs,
              standard_deviation := d.standard_deviation,
              noise_floor := some (List.replicate d.survey.nD (.num (n : ℚ))) } := by
  constructor <;>
    simp [Data.set_standard_deviation, Data.set_noise_floor,
      Data.uncertaintyValidator, UncertaintyArray.validate, Data.dobsValidator,
      Except.map, Bind.bind, Except.bind, hd, hn]

/-- C10 witness: the int 3 broadcast over the example instance. -/
theorem c10_witness :
    dataEx.set_standard_deviation (.int 3)
      = .ok { survey := dataEx.survey, dobs := dataEx.dobs,
              standard_deviation := some (List.replicate dataEx.survey.nD (.num ((3 : ℤ) : ℚ))),
              noise_floor := dataEx.noise_floor } ∧
    dataEx.set_noise_floor (.int 3)
      = .ok { survey := dataEx.survey, dobs := dataEx.dobs,
              standard_deviation := dataEx.standard_deviation,
              noise_floor := some (List.replicate dataEx.survey.nD (.num ((3 : ℤ) : ℚ))) } :=
  c10_int_scalar_coercion dataEx
    [RVal.num 0, .num 1, .num 2, .num 3, .num 4, .num 5] 3 rfl (by decide)

/-- C2 counterexample: the claim says the length-validation check fires on
every assignment, including partial in-place index writes through the index
map.  On the example instance, `data[s1, r2] = [7]` writes the length-1 value
into receiver `r2`'s range `[2, 5)` of length 3 — a wrong-length value by
either measure (`1 ≠ 3` and `1 ≠ survey.nD = 6`) — yet the operation completes
successfully by numpy broadcast: no length-validation error is raised. -/
theorem c2_counterexample :
    (dataEx.setItem 0 1 [.num 7]).2 = .ok
      { survey := surveyEx,
        dobs := some [.num 0, .num 1, .num 7, .num 7, .num 7, .num 5],
        standard_deviation := some (List.replicate 6 (.num 0)),
        noise_floor := some (List.replicate 6 (.num 0)) } ∧
    (1 : ℕ) ≠ 3 ∧ (1 : ℕ) ≠ dataEx.survey.nD :=
  ⟨by rfl, by decide, by decide⟩

/-- Writing a value of the range's length, or of length 1, through fancy
indexing always succeeds when the range lies inside the array. -/
theorem npFancySet_isOk (a : List RVal) (lo hi : ℕ) (v : List RVal)
    (hhi : hi ≤ a.length) (hv : v.length = hi - lo ∨ v.length = 1) :
    ∃ a2, npFancySet a lo hi v = .ok a2 := by
  unfold npFancySet
  rw [if_pos (Or.inl hhi)]
  by_cases h2 : v.length = hi - lo
  · exact ⟨_, by rw [if_pos h2]⟩
  · rcases hv with hv | hv
    · exact absurd hv h2
    · exact ⟨_, by rw [if_neg h2, if_pos hv]⟩

/-- C2 amended: the length-validation check fires on every whole-array
assignment to `dobs`, `standard_deviation` or `noise_floor`, but partial
in-place index writes mediated through the index map bypass it entirely: they
mutate the stored array under numpy broadcasting, so any value of the range's
length or of length 1 is written with no length validation against
`survey.nD`. -/
theorem c2_amended_validator_scope (d : Data) (a : List RVal) (si ri lo hi : ℕ)
    (v : List RVal) (ha : d.dobs = some a) (hr : d.rangeOf si ri = some (lo, hi))
    (hhi : hi ≤ a.length) (hv : v.length = hi - lo ∨ v.length = 1) :
    (∀ b : List RVal, b.length ≠ d.survey.nD →
      d.set_dobs (.arr b) = .error (.lengthError "dobs" b.length d.survey.nD) ∧
      d.set_standard_deviation (.arr b)
        = .error (.lengthError "standard_deviation" b.length d.survey.nD) ∧
      d.set_noise_floor (.arr b)
        = .error (.lengthError "noise_floor" b.length d.survey.nD)) ∧
    ∃ a2, (d.setItem si ri v).2 = .ok
      { survey := d.survey, dobs := some a2,
        standard_deviation := d.standard_deviation,
        noise_floor := d.noise_floor } := by
  constructor
  · intro b hb
    have hb' : d.survey.nD ≠ b.length := fun e => hb e.symm
    refine ⟨?_, ?_, ?_⟩ <;>
      simp [Data.set_dobs, Data.set_standard_deviation, Data.set_noise_floor,
        Data.uncertaintyValidator, UncertaintyArray.validate, Data.dobsValidator,
        Except.map, Bind.bind, Except.bind, hb']
  · obtain ⟨a2, h2⟩ := npFancySet_isOk a lo hi v hhi hv
    exact ⟨a2, by simp [Data.setItem, hr, ha, h2, Except.map]⟩

/-- C2 amended witness: on the example instance, range `[2, 5)` of receiver
`r2`, the length-3 value `[7, 8, 9]` is written in place with no length check
against `survey.nD = 6`, while the whole-array setters reject it. -/
theorem c2_amended_witness :
    ((∀ b : List RVal, b.length ≠ dataEx.survey.nD →
      dataEx.set_dobs (.arr b)
        = .error (.lengthError "dobs" b.length dataEx.survey.nD) ∧
      dataEx.set_standard_deviation (.arr b)
        = .error (.lengthError "standard_deviation" b.length dataEx.survey.nD) ∧
      dataEx.set_noise_floor (.arr b)
        = .error (.lengthError "noise_floor" b.length dataEx.survey.nD)) ∧
    ∃ a2, (dataEx.setItem 0 1 [.num 7, .num 8, .num 9]).2 = .ok
      { survey := dataEx.survey, dobs := some a2,
        standard_deviation := dataEx.standard_deviation,
        noise_floor := dataEx.noise_floor }) :=
  c2_amended_validator_scope dataEx
    [RVal.num 0, .num 1, .num 2, .num 3, .num 4, .num 5] 0 1 2 5
    [.num 7, .num 8, .num 9] rfl (by decide) (by decide) (Or.inl (by decide))

/-- C8: for a (source, receiver) key present in the survey, dictionary-style
get returns exactly what the index-range read over that receiver's range
returns, dictionary-style set performs exactly the index-range write, and both
emit the deprecation warning as a side signal, separate from (and not
affecting) the result of the requested operation. -/
theorem c8_dict_access_equiv (d : Data) (si ri lo hi : ℕ) (v : List RVal)
    (h : d.rangeOf si ri = some (lo, hi)) :
    (d.getItem si ri).2 = d.readRange lo hi ∧
    (d.getItem si ri).1 = [dictAccessWarning] ∧
    (d.setItem si ri v).2 = d.writeRange lo hi v ∧
    (d.setItem si ri v).1 = [dictAccessWarning] := by
  refine ⟨?_, rfl, ?_, rfl⟩
  · cases hd : d.dobs <;> simp [Data.getItem, Data.readRange, h, hd]
  · cases hd : d.dobs <;> simp [Data.setItem, Data.writeRange, h, hd]

/-- C8 witness: key `(s1, r1)` on the example instance resolves to range
`[0, 2)` and the adapters agree with the range accessors there. -/
theorem c8_witness :
    (dataEx.getItem 0 0).2 = dataEx.readRange 0 2 ∧
    (dataEx.getItem 0 0).1 = [dictAccessWarning] ∧
    (dataEx.setItem 0 0 [.num 9, .num 9]).2
      = dataEx.writeRange 0 2 [.num 9, .num 9] ∧
    (dataEx.setItem 0 0 [.num 9, .num 9]).1 = [dictAccessWarning] :=
  c8_dict_access_equiv dataEx 0 0 0 2 [.num 9, .num 9] (by decide)

/-- A `SyntheticData` over the example survey in a fully set state. -/
def synthEx : SyntheticData :=
  { toData := dataEx, dclean := some (List.replicate 6 (.num 0)) }

/-- C9: `dclean` is validated by the identical length check as `dobs` (any
array of length other than `survey.nD` raises the validation error naming
`dclean`), and a `SyntheticData` constructed without `dclean` gets a
sentinel-filled array of length `survey.nD`. -/
theorem c9_dclean_same_invariant (sd : SyntheticData) (a : List RVal)
    (S : BaseSurvey) (h : a.length ≠ sd.toData.survey.nD) :
    sd.set_dclean (.arr a)
      = .error (.lengthError "dclean" a.length sd.toData.survey.nD) ∧
    SyntheticData.init S none none none none =
      .ok { toData := { survey := S, dobs := some (List.replicate S.nD .nan),
                        standard_deviation := some (List.replicate S.nD (.num 0)),
                        noise_floor := some (List.replicate S.nD (.num 0)) },
            dclean := some (List.replicate S.nD .nan) } := by
  have h' : sd.toData.survey.nD ≠ a.length := fun e => h e.symm
  constructor
  · simp [SyntheticData.set_dclean, Data.dobsValidator, Except.map, h']
  · simp [SyntheticData.init, data_init_default, SyntheticData.set_dclean,
      Data.dobsValidator, Except.map, Bind.bind, Except.bind, Pure.pure,
      Except.pure]

/-- C9 witness: a length-1 `dclean` is rejected on the example synthetic
instance, and default construction over the example survey sentinel-fills
`dclean` at length 6. -/
theorem c9_witness :
    synthEx.set_dclean (.arr [.num 1])
      = .error (.lengthError "dclean" 1 synthEx.toData.survey.nD) ∧
    SyntheticData.init surveyEx none none none none =
      .ok { toData := { survey := surveyEx,
                        dobs := some (List.replicate surveyEx.nD .nan),
                        standard_deviation := some (List.replicate surveyEx.nD (.num 0)),
                        noise_floor := some (List.replicate surveyEx.nD (.num 0)) },
            dclean := some (List.replicate surveyEx.nD .nan) } :=
  c9_dclean_same_invariant synthEx [.num 1] surveyEx (by decide)
